import Mathlib

set_option maxRecDepth 100000

/-!
Verification of the P1 DSMR telegram decoder (src/CRC16.h, src/main.cpp).

Shallow embedding conventions:
* A telegram line is a `List Nat` of byte values (the `nLen` bytes the caller
  passes to `DecodeTelegram`, i.e. the raw line bytes followed by the newline).
  The C code stores the line in the zero-initialised buffer `achTelegram`;
  reads past the current line therefore see `0`, modelled by `bufGet`.
* C `int` values (search positions, lengths) are `Int`; the meter-reading
  globals of type `long` are `Int`; the unsigned CRC accumulator is `Nat`
  (all CRC operations are xor / shift-right, which never overflow 32 bits
  when started below 2^16, so no modulus is needed).
* `atof` parses the longest `digits [ . digits ]` prefix; its result and the
  product `1000 * atof(...)` are modelled in exact IEEE-754 binary64
  semantics (`flFrac`: 53-bit round-to-nearest, ties to even, on exact
  fractions — exact double semantics for the normal-range, non-negative
  values this program produces), and the conversion of the `double` to an
  integer type truncates towards zero (floor division here, the values
  being non-negative), which C defines whenever the truncated value is
  representable.  The meter fields are kept as unbounded `Int`; statements
  about accepted values therefore carry an explicit fits-in-32-bit-`long`
  hypothesis where the conversion's definedness is at stake.
* `strtoul(s, NULL, 16)` is modelled on the four copied bytes: skip spaces,
  optional sign, optional 0x prefix, fold hexadecimal digits, value modulo
  2^32 (a negative sign wraps, as `strtoul` does).
-/

/-- Byte of the line buffer at index `i`; bytes past the current line read as
zero (the buffer is zero-initialised before lines are read into it). -/
def bufGet (l : List Nat) (i : Nat) : Nat := l.getD i 0

/-- Loop body of `FindLastChar`: scan indices `n-1, n-2, …, 0` and return the
first (i.e. highest) index holding byte `c`, or `-1`. -/
def findLastAux (buf : List Nat) (c : Nat) : Nat → Int
  | 0 => -1
  | n + 1 => if bufGet buf n = c then (n : Int) else findLastAux buf c n

/-- FindLastChar from main.cpp: position of the last occurrence of `c` among
`buf[0] … buf[n-1]`, or `-1` if not found. -/
def FindLastChar (buf : List Nat) (c : Nat) (n : Int) : Int :=
  findLastAux buf c n.toNat

/-- Loop body of `FindFirstChar`: scan upwards from index `i` with `fuel`
remaining iterations, stopping early at a NUL byte. -/
def findFirstAux (buf : List Nat) (c : Nat) : Nat → Nat → Int
  | _, 0 => -1
  | i, fuel + 1 =>
    if bufGet buf i = 0 then -1
    else if bufGet buf i = c then (i : Int)
    else findFirstAux buf c (i + 1) fuel

/-- FindFirstChar from main.cpp: position of the first occurrence of `c` among
`buf[0] … buf[n]` (the C loop runs while `i <= nLen`), stopping at a NUL byte;
`-1` if not found. -/
def FindFirstChar (buf : List Nat) (c : Nat) (n : Int) : Int :=
  if n < 0 then -1 else findFirstAux buf c 0 (n.toNat + 1)

/-- IsNumber from main.cpp: digit, decimal point, or NUL
(`isdigit(ch) || ch == '.' || ch == 0`). -/
def IsNumber (ch : Nat) : Bool :=
  (48 ≤ ch && ch ≤ 57) || ch == 46 || ch == 0

/-- Parse a maximal run of decimal digits at the head of the list, returning
(value, number of digits, rest). -/
def digitsVal : List Nat → Nat × Nat × List Nat
  | [] => (0, 0, [])
  | c :: r =>
    if 48 ≤ c ∧ c ≤ 57 then
      match digitsVal r with
      | (v, k, rest) => ((c - 48) * 10 ^ k + v, k + 1, rest)
    else (0, 0, c :: r)

/-- Exact value of `atof` on the buffer suffix: longest `digits [ . digits ]`
prefix, as (numerator, count of fraction digits); the value is
`numerator / 10 ^ count`. -/
def atofParse (l : List Nat) : Nat × Nat :=
  match digitsVal l with
  | (iv, _, rest) =>
    match rest with
    | 46 :: r2 =>
      match digitsVal r2 with
      | (fv, fk, _) => (iv * 10 ^ fk + fv, fk)
    | _ => (iv, 0)

/-- Hexadecimal value of an ASCII byte, if it is a hex digit. -/
def hexVal (c : Nat) : Option Nat :=
  if 48 ≤ c ∧ c ≤ 57 then some (c - 48)
  else if 65 ≤ c ∧ c ≤ 70 then some (c - 55)
  else if 97 ≤ c ∧ c ≤ 102 then some (c - 87)
  else none

/-- Fold a maximal run of hexadecimal digits into an accumulator. -/
def hexFold : List Nat → Nat → Nat
  | [], acc => acc
  | c :: r, acc =>
    match hexVal c with
    | some v => hexFold r (acc * 16 + v)
    | none => acc

/-- ASCII whitespace as classified by `isspace` in the C locale. -/
def isSpaceByte (c : Nat) : Bool := c == 32 || (9 ≤ c && c ≤ 13)

/-- Drop an `0x` / `0X` prefix when a hex digit follows (as `strtoul` with
base 16 does). -/
def stripHexMark (l : List Nat) : List Nat :=
  match l with
  | 48 :: x :: r =>
    if (x == 120 || x == 88) && (hexVal (bufGet r 0)).isSome then r else 48 :: x :: r
  | _ => l

/-- Model of `strtoul(s, NULL, 16)` on the (up to four) copied bytes: skip
whitespace, optional sign, optional 0x, fold hex digits; result is the
unsigned-long value (a minus sign wraps modulo 2^32). -/
def strtoul16 (l : List Nat) : Nat :=
  let l1 := l.dropWhile isSpaceByte
  match l1 with
  | 45 :: r => (2 ^ 32 - hexFold (stripHexMark r) 0 % 2 ^ 32) % 2 ^ 32
  | 43 :: r => hexFold (stripHexMark r) 0 % 2 ^ 32
  | _ => hexFold (stripHexMark l1) 0 % 2 ^ 32

/-- Inner-loop body of Crc16 (CRC16.h): one shift step of the accumulator. -/
def crc16Bit (crc : Nat) : Nat :=
  if crc &&& 1 ≠ 0 then (crc >>> 1) ^^^ 0xA001 else crc >>> 1

/-- The 8-fold iteration of `crc16Bit` (`for (int i = 8; i != 0; i--)`). -/
def crc16Rounds : Nat → Nat → Nat
  | 0, crc => crc
  | n + 1, crc => crc16Rounds n (crc16Bit crc)

/-- Crc16 from CRC16.h: fold every byte into the accumulator (xor into the
low byte, then eight shift steps). -/
def Crc16 (uCrc : Nat) (buf : List Nat) : Nat :=
  buf.foldl (fun c b => crc16Rounds 8 (c ^^^ b)) uCrc

/-- Bytes of a Lean string literal, used to write telegram lines and OBIS
codes the way the source writes them. -/
def strB (s : String) : List Nat := s.data.map Char.toNat

/-- Position of the opening bracket used by `GetValue`:
`FindLastChar(pchBuffer, '(', nMaxLen - 1)`. -/
def tokStart (buf : List Nat) (nMaxLen : Int) : Int :=
  FindLastChar buf 40 (nMaxLen - 1)

/-- Token length used by `GetValue`: distance from the opening bracket to the
last `*`, or, when that is negative, to the last `)`. -/
def tokLen (buf : List Nat) (nMaxLen : Int) : Int :=
  let nL0 := FindLastChar buf 42 (nMaxLen - 1) - tokStart buf nMaxLen - 1
  if nL0 < 0 then FindLastChar buf 41 (nMaxLen - 1) - tokStart buf nMaxLen - 1 else nL0

/-- Round the fraction `m / d` (with `d ≠ 0`) to the nearest integer, ties
to even. -/
def rneNat (m d : Nat) : Nat :=
  if 2 * (m % d) < d then m / d
  else if d < 2 * (m % d) then m / d + 1
  else if (m / d) % 2 = 0 then m / d else m / d + 1

/-- Normalise the positive fraction `m / d` to `(m2 / d2) * 2 ^ e` with
`2^52 ≤ m2 / d2 < 2^53` (fuel-bounded; 300 steps is ample for every value
this program can produce, whose magnitudes lie between 10^-11 and 10^15). -/
def flNorm : Nat → Nat → Int → Nat → Nat × Nat × Int
  | m, d, e, 0 => (m, d, e)
  | m, d, e, fuel + 1 =>
    if m < 2 ^ 52 * d then flNorm (2 * m) d (e - 1) fuel
    else if 2 ^ 53 * d ≤ m then flNorm m (2 * d) (e + 1) fuel
    else (m, d, e)

/-- Round the non-negative fraction `m / d` to the nearest IEEE-754 binary64
double (53-bit significand, round to nearest, ties to even), returned as an
exact fraction.  The values this program feeds it are 0 or in the normal
range, where this is exact double semantics. -/
def flFrac (m d : Nat) : Nat × Nat :=
  if m = 0 then (0, 1)
  else
    match flNorm m d 0 300 with
    | (m2, d2, e) =>
      if 0 ≤ e then (rneNat m2 d2 * 2 ^ e.toNat, 1)
      else (rneNat m2 d2, 2 ^ (-e).toNat)

/-- Numeric result of `GetValue` once validation has passed:
`1000 * atof(pchValue)` computed in IEEE double arithmetic (the `atof`
result is the nearest double to the token's longest numeric prefix, and the
literal 1000 converts to double exactly), truncated towards zero by the C
double-to-`long` conversion; or the plain truncated `atof` value when
`bMultiply` is unset.  The values are non-negative, so truncation is `Nat`
floor division. -/
def numVal (l : List Nat) (bMultiply : Bool) : Int :=
  let d1 := flFrac (atofParse l).1 (10 ^ (atofParse l).2)
  if bMultiply then
    let d2 := flFrac (1000 * d1.1) d1.2
    ((d2.1 / d2.2 : Nat) : Int)
  else ((d1.1 / d1.2 : Nat) : Int)

/-- GetValue from main.cpp: locate the token after the last `(`, bound its
position to `[8, 32]` and its length to `[1, 12]`, validate each character
with `IsNumber`, then return the (possibly ×1000) `atof` value; any check
failing returns 0. -/
def GetValue (buf : List Nat) (nMaxLen : Int) (bMultiply : Bool) : Int :=
  if tokStart buf nMaxLen < 8 then 0
  else if 32 < tokStart buf nMaxLen then 0
  else if tokLen buf nMaxLen < 1 ∨ 12 < tokLen buf nMaxLen then 0
  else if ¬ ((List.range (tokLen buf nMaxLen).toNat).all
      (fun i => IsNumber (bufGet buf ((tokStart buf nMaxLen).toNat + 1 + i)))) then 0
  else numVal (buf.drop ((tokStart buf nMaxLen).toNat + 1)) bMultiply

/-- Contents of the C string written by `strncpy(pchText, pchBuffer + s, n)`
followed by `pchText[n] = 0`: the copied bytes up to the first NUL. -/
def strncpyStr (buf : List Nat) (s n : Nat) : List Nat :=
  ((List.range n).map (fun i => bufGet buf (s + i))).takeWhile (fun b => b ≠ 0)

/-- Opening-bracket position used by `GetLastText`. -/
def ltStart (buf : List Nat) (nMaxLen : Int) : Int :=
  FindLastChar buf 40 (nMaxLen - 1)

/-- Text length used by `GetLastText`: distance from the opening bracket to
the last `)`. -/
def ltLen (buf : List Nat) (nMaxLen : Int) : Int :=
  FindLastChar buf 41 (nMaxLen - 1) - ltStart buf nMaxLen - 1

/-- GetLastText from main.cpp: returns the `int` result together with the
contents of `pchText` (empty on failure, since `pchText[0] = 0` runs first). -/
def GetLastText (buf : List Nat) (nMaxLen : Int) : Int × List Nat :=
  if ltStart buf nMaxLen < 8 ∨ 39 < ltStart buf nMaxLen then (0, [])
  else if ltLen buf nMaxLen < 1 ∨ 31 < ltLen buf nMaxLen then (0, [])
  else (ltLen buf nMaxLen,
    strncpyStr buf ((ltStart buf nMaxLen).toNat + 1) (ltLen buf nMaxLen).toNat)

/-- Opening-bracket position used by `GetFirstText`. -/
def ftStart (buf : List Nat) (nMaxLen : Int) : Int :=
  FindFirstChar buf 40 (nMaxLen - 2)

/-- Text length used by `GetFirstText`: distance from the opening bracket to
the first `)`. -/
def ftLen (buf : List Nat) (nMaxLen : Int) : Int :=
  FindFirstChar buf 41 nMaxLen - ftStart buf nMaxLen

/-- GetFirstText from main.cpp: returns the `int` result together with the
contents of `pchText` (empty on failure). -/
def GetFirstText (buf : List Nat) (nMaxLen : Int) : Int × List Nat :=
  if ftStart buf nMaxLen < 8 ∨ 12 < ftStart buf nMaxLen then (0, [])
  else if ftLen buf nMaxLen < 1 ∨ 31 < ftLen buf nMaxLen then (0, [])
  else (ftLen buf nMaxLen,
    strncpyStr buf ((ftStart buf nMaxLen).toNat + 1) ((ftLen buf nMaxLen).toNat - 1))

/-- OBIS code "1-3:0.2.8" (DSMR version). -/
def DSMR_VERSION : List Nat := strB ("1-3:0.2.8")

/-- OBIS code "0-0:1.0.0" (power timestamp). -/
def DSMR_PWR_TIMESTAMP : List Nat := strB ("0-0:1.0.0")

/-- OBIS code "1-0:1.8.1" (consumption, low tariff). -/
def DSMR_PWR_LOW : List Nat := strB ("1-0:1.8.1")

/-- OBIS code "1-0:1.8.2" (consumption, high tariff). -/
def DSMR_PWR_HIGH : List Nat := strB ("1-0:1.8.2")

/-- OBIS code "1-0:2.8.1" (return, low tariff). -/
def DSMR_RET_LOW : List Nat := strB ("1-0:2.8.1")

/-- OBIS code "1-0:2.8.2" (return, high tariff). -/
def DSMR_RET_HIGH : List Nat := strB ("1-0:2.8.2")

/-- OBIS code "1-0:1.7.0" (actual consumption, all phases). -/
def DSMR_PWR_ACTUAL : List Nat := strB ("1-0:1.7.0")

/-- OBIS code "1-0:21.7.0" (actual consumption L1). -/
def DSMR_PWR_L1 : List Nat := strB ("1-0:21.7.0")

/-- OBIS code "1-0:41.7.0" (actual consumption L2). -/
def DSMR_PWR_L2 : List Nat := strB ("1-0:41.7.0")

/-- OBIS code "1-0:61.7.0" (actual consumption L3). -/
def DSMR_PWR_L3 : List Nat := strB ("1-0:61.7.0")

/-- OBIS code "1-0:22.7.0" (actual return L1). -/
def DSMR_RET_L1 : List Nat := strB ("1-0:22.7.0")

/-- OBIS code "1-0:42.7.0" (actual return L2). -/
def DSMR_RET_L2 : List Nat := strB ("1-0:42.7.0")

/-- OBIS code "1-0:62.7.0" (actual return L3). -/
def DSMR_RET_L3 : List Nat := strB ("1-0:62.7.0")

/-- OBIS code "1-0:2.7.0" (actual return, all phases). -/
def DSMR_RET_ACTUAL : List Nat := strB ("1-0:2.7.0")

/-- OBIS code "0-0:96.14.0" (current tariff). -/
def DSMR_PWR_TARIFF : List Nat := strB ("0-0:96.14.0")

/-- OBIS code "0-1:24.2.1" (gas meter). -/
def DSMR_GAS_METER : List Nat := strB ("0-1:24.2.1")

/-- Model of `strncmp(achTelegram, p, strlen(p)) == 0`: the first
`p.length` buffer bytes equal `p` (the OBIS codes contain no NUL, so the
NUL-stop of `strncmp` cannot fire before a mismatch). -/
def strncmpEq (buf p : List Nat) : Bool :=
  (List.range p.length).all (fun i => bufGet buf i == p.getD i 0)

/-- The meter-reading globals of main.cpp (`long` fields as `Int`, the two
timestamp character arrays as their C-string contents). -/
structure MeterReading where
  lDsmrVersion : Int := 0
  achPwrTime : List Nat := []
  lPwrLow : Int := 0
  lPwrHigh : Int := 0
  lPwrActual : Int := 0
  lPwrL1 : Int := 0
  lPwrL2 : Int := 0
  lPwrL3 : Int := 0
  lReturnLow : Int := 0
  lReturnHigh : Int := 0
  lReturnActual : Int := 0
  lReturnL1 : Int := 0
  lReturnL2 : Int := 0
  lReturnL3 : Int := 0
  lPwrTariff : Int := 0
  achGasTime : List Nat := []
  lGasMeter : Int := 0
  deriving DecidableEq

/-- Decoder state: the meter readings plus the global CRC accumulator. -/
structure DecoderState where
  reading : MeterReading := {}
  nCurrentCrc : Nat := 0
  deriving DecidableEq

/-- The initial state: all readings zero / empty, accumulator zero. -/
def initState : DecoderState := {}

/-- The four bytes copied by `strncpy(achMessageCrc, achTelegram + p, 4)`. -/
def crcDigits (line : List Nat) (p : Nat) : List Nat :=
  [bufGet line p, bufGet line (p + 1), bufGet line (p + 2), bufGet line (p + 3)]

/-- Position of the last `/` on the line (`nStartChar`, as a `Nat` index). -/
def slashIdx (line : List Nat) : Nat :=
  (FindLastChar line 47 (line.length : Int)).toNat

/-- Position of the last `!` on the line (`nEndChar`, as a `Nat` index). -/
def bangIdx (line : List Nat) : Nat :=
  (FindLastChar line 33 (line.length : Int)).toNat

/-- CRC part of `DecodeTelegram`: the three-way branch on `/` and `!`,
returning the new accumulator and `bValidCrcFound`. -/
def crcPhase (crc : Nat) (line : List Nat) : Nat × Bool :=
  if 0 ≤ FindLastChar line 47 (line.length : Int) then
    (Crc16 0 (line.drop (slashIdx line)), false)
  else if 0 ≤ FindLastChar line 33 (line.length : Int) then
    (0, strtoul16 (crcDigits line (bangIdx line + 1)) ==
      Crc16 crc [bufGet line (bangIdx line)])
  else
    (Crc16 crc line, false)

/-- DSMR-version branch of `DecodeTelegram`. -/
def updVersion (line : List Nat) (nLen : Int) (r : MeterReading) : MeterReading :=
  if strncmpEq line DSMR_VERSION then { r with lDsmrVersion := GetValue line nLen false } else r

/-- Power-timestamp branch of `DecodeTelegram` (it also reassigns the local
`nLen` to `GetLastText`'s return value; see `obisPhase`). -/
def updPwrTime (line : List Nat) (nLen : Int) (r : MeterReading) : MeterReading :=
  if strncmpEq line DSMR_PWR_TIMESTAMP then
    { r with achPwrTime := (GetLastText line nLen).2 } else r

/-- Low-tariff-consumption branch of `DecodeTelegram`. -/
def updPwrLow (line : List Nat) (nLen : Int) (r : MeterReading) : MeterReading :=
  if strncmpEq line DSMR_PWR_LOW then { r with lPwrLow := GetValue line nLen true } else r

/-- High-tariff-consumption branch of `DecodeTelegram`. -/
def updPwrHigh (line : List Nat) (nLen : Int) (r : MeterReading) : MeterReading :=
  if strncmpEq line DSMR_PWR_HIGH then { r with lPwrHigh := GetValue line nLen true } else r

/-- Low-tariff-return branch of `DecodeTelegram`. -/
def updReturnLow (line : List Nat) (nLen : Int) (r : MeterReading) : MeterReading :=
  if strncmpEq line DSMR_RET_LOW then { r with lReturnLow := GetValue line nLen true } else r

/-- High-tariff-return branch of `DecodeTelegram`. -/
def updReturnHigh (line : List Nat) (nLen : Int) (r : MeterReading) : MeterReading :=
  if strncmpEq line DSMR_RET_HIGH then { r with lReturnHigh := GetValue line nLen true } else r

/-- Actual-consumption branch of `DecodeTelegram`. -/
def updPwrActual (line : List Nat) (nLen : Int) (r : MeterReading) : MeterReading :=
  if strncmpEq line DSMR_PWR_ACTUAL then { r with lPwrActual := GetValue line nLen true } else r

/-- Actual-consumption-L1 branch of `DecodeTelegram`. -/
def updPwrL1 (line : List Nat) (nLen : Int) (r : MeterReading) : MeterReading :=
  if strncmpEq line DSMR_PWR_L1 then { r with lPwrL1 := GetValue line nLen true } else r

/-- Actual-consumption-L2 branch of `DecodeTelegram`. -/
def updPwrL2 (line : List Nat) (nLen : Int) (r : MeterReading) : MeterReading :=
  if strncmpEq line DSMR_PWR_L2 then { r with lPwrL2 := GetValue line nLen true } else r

/-- Actual-consumption-L3 branch of `DecodeTelegram`. -/
def updPwrL3 (line : List Nat) (nLen : Int) (r : MeterReading) : MeterReading :=
  if strncmpEq line DSMR_PWR_L3 then { r with lPwrL3 := GetValue line nLen true } else r

/-- Actual-return branch of `DecodeTelegram`. -/
def updReturnActual (line : List Nat) (nLen : Int) (r : MeterReading) : MeterReading :=
  if strncmpEq line DSMR_RET_ACTUAL then { r with lReturnActual := GetValue line nLen true } else r

/-- Actual-return-L1 branch of `DecodeTelegram`. -/
def updReturnL1 (line : List Nat) (nLen : Int) (r : MeterReading) : MeterReading :=
  if strncmpEq line DSMR_RET_L1 then { r with lReturnL1 := GetValue line nLen true } else r

/-- Actual-return-L2 branch of `DecodeTelegram`. -/
def updReturnL2 (line : List Nat) (nLen : Int) (r : MeterReading) : MeterReading :=
  if strncmpEq line DSMR_RET_L2 then { r with lReturnL2 := GetValue line nLen true } else r

/-- Actual-return-L3 branch of `DecodeTelegram`. -/
def updReturnL3 (line : List Nat) (nLen : Int) (r : MeterReading) : MeterReading :=
  if strncmpEq line DSMR_RET_L3 then { r with lReturnL3 := GetValue line nLen true } else r

/-- Tariff branch of `DecodeTelegram` (unscaled). -/
def updPwrTariff (line : List Nat) (nLen : Int) (r : MeterReading) : MeterReading :=
  if strncmpEq line DSMR_PWR_TARIFF then { r with lPwrTariff := GetValue line nLen false } else r

/-- Gas branch of `DecodeTelegram`: numeric total (×1000) plus the leading
text timestamp (`achGasTime[0] = 0` runs first, so failure leaves it empty). -/
def updGas (line : List Nat) (nLen : Int) (r : MeterReading) : MeterReading :=
  if strncmpEq line DSMR_GAS_METER then
    { r with lGasMeter := GetValue line nLen true, achGasTime := (GetFirstText line nLen).2 }
  else r

/-- Field-extraction part of `DecodeTelegram`: the sixteen sequential prefix
checks of main.cpp in source order.  The power-timestamp branch overwrites
the local `nLen` with `GetLastText`'s return value, so every branch after it
uses `nLen2`, exactly as the C code does. -/
def obisPhase (r : MeterReading) (line : List Nat) : MeterReading :=
  let nLen : Int := (line.length : Int)
  let r1 := updVersion line nLen r
  let r2 := updPwrTime line nLen r1
  let nLen2 := if strncmpEq line DSMR_PWR_TIMESTAMP then (GetLastText line nLen).1 else nLen
  let r3 := updPwrLow line nLen2 r2
  let r4 := updPwrHigh line nLen2 r3
  let r5 := updReturnLow line nLen2 r4
  let r6 := updReturnHigh line nLen2 r5
  let r7 := updPwrActual line nLen2 r6
  let r8 := updPwrL1 line nLen2 r7
  let r9 := updPwrL2 line nLen2 r8
  let r10 := updPwrL3 line nLen2 r9
  let r11 := updReturnActual line nLen2 r10
  let r12 := updReturnL1 line nLen2 r11
  let r13 := updReturnL2 line nLen2 r12
  let r14 := updReturnL3 line nLen2 r13
  let r15 := updPwrTariff line nLen2 r14
  updGas line nLen2 r15

/-- DecodeTelegram from main.cpp on one line (the `nLen` bytes handed to it):
first the CRC three-way branch, then the sixteen OBIS extractions; returns the
new state and `bValidCrcFound`. -/
def DecodeTelegram (st : DecoderState) (line : List Nat) : DecoderState × Bool :=
  let cv := crcPhase st.nCurrentCrc line
  ({ reading := obisPhase st.reading line, nCurrentCrc := cv.1 }, cv.2)

/-- Fold `DecodeTelegram` over a sequence of lines, discarding the per-line
validity results. -/
def runLines (st : DecoderState) (ls : List (List Nat)) : DecoderState :=
  ls.foldl (fun s l => (DecodeTelegram s l).1) st

/-- Concrete telegram line: low-tariff consumption with value 000992.992 kWh. -/
def tlPwrLow : List Nat := strB ("1-0:1.8.1(000992.992*kWh)") ++ [10]

/-- Concrete telegram line: DSMR version 42. -/
def tlVersion : List Nat := strB ("1-3:0.2.8(42)") ++ [10]

/-- Concrete telegram line: gas timestamp and total. -/
def tlGas : List Nat := strB ("0-1:24.2.1(150531200000S)(00811.923*m3)") ++ [10]

/-- Concrete telegram line: current tariff 2. -/
def tlTariff : List Nat := strB ("0-0:96.14.0(0002)") ++ [10]

/-- Concrete telegram line whose version token `1..2` carries two decimal
points. -/
def tlDots : List Nat := strB ("1-3:0.2.8(1..2)") ++ [10]

/-- Concrete telegram line whose version token is empty (extraction fails). -/
def tlEmptyTok : List Nat := strB ("1-3:0.2.8()") ++ [10]

/-- Concrete telegram line matching no OBIS code of the table. -/
def tlNoMatch : List Nat := strB ("0-0:96.7.9(00005)") ++ [10]

/-- A decoder state whose version field holds a prior value 42. -/
def stPrior : DecoderState := { reading := { lDsmrVersion := 42 }, nCurrentCrc := 0 }

/-- The disjunction of `GetValue`'s rejection conditions: opening bracket
outside `[8, 32]`, token length outside `[1, 12]`, or a token character
failing `IsNumber`. -/
def getValueFails (buf : List Nat) (n : Int) : Bool :=
  decide (tokStart buf n < 8) || decide (32 < tokStart buf n) ||
  decide (tokLen buf n < 1) || decide (12 < tokLen buf n) ||
  !((List.range (tokLen buf n).toNat).all
      (fun i => IsNumber (bufGet buf ((tokStart buf n).toNat + 1 + i))))

/-- The disjunction of `GetLastText`'s rejection conditions. -/
def getLastTextFails (buf : List Nat) (n : Int) : Bool :=
  decide (ltStart buf n < 8 ∨ 39 < ltStart buf n) ||
  decide (ltLen buf n < 1 ∨ 31 < ltLen buf n)

/-- The disjunction of `GetFirstText`'s rejection conditions. -/
def getFirstTextFails (buf : List Nat) (n : Int) : Bool :=
  decide (ftStart buf n < 8 ∨ 12 < ftStart buf n) ||
  decide (ftLen buf n < 1 ∨ 31 < ftLen buf n)

/-- Any failed check makes `GetValue` return 0. -/
theorem GetValue_eq_zero_of_fails (buf : List Nat) (n : Int) (m : Bool)
    (h : getValueFails buf n = true) : GetValue buf n m = 0 := by
  unfold getValueFails at h
  simp only [Bool.or_eq_true, decide_eq_true_eq, Bool.not_eq_true'] at h
  unfold GetValue
  rcases h with ((((h | h) | h) | h) | h)
  · rw [if_pos h]
  · by_cases h8 : tokStart buf n < 8
    · rw [if_pos h8]
    · rw [if_neg h8, if_pos h]
  · by_cases h8 : tokStart buf n < 8
    · rw [if_pos h8]
    · rw [if_neg h8]
      by_cases h32 : 32 < tokStart buf n
      · rw [if_pos h32]
      · rw [if_neg h32, if_pos (Or.inl h)]
  · by_cases h8 : tokStart buf n < 8
    · rw [if_pos h8]
    · rw [if_neg h8]
      by_cases h32 : 32 < tokStart buf n
      · rw [if_pos h32]
      · rw [if_neg h32, if_pos (Or.inr h)]
  · by_cases h8 : tokStart buf n < 8
    · rw [if_pos h8]
    · rw [if_neg h8]
      by_cases h32 : 32 < tokStart buf n
      · rw [if_pos h32]
      · rw [if_neg h32]
        by_cases hL : tokLen buf n < 1 ∨ 12 < tokLen buf n
        · rw [if_pos hL]
        · rw [if_neg hL, if_pos (by simp [h])]

/-- Any failed check makes `GetLastText` leave the text empty. -/
theorem GetLastText_empty_of_fails (buf : List Nat) (n : Int)
    (h : getLastTextFails buf n = true) : (GetLastText buf n).2 = [] := by
  unfold getLastTextFails at h
  simp only [Bool.or_eq_true, decide_eq_true_eq] at h
  unfold GetLastText
  rcases h with h | h
  · rw [if_pos h]
  · by_cases h1 : ltStart buf n < 8 ∨ 39 < ltStart buf n
    · rw [if_pos h1]
    · rw [if_neg h1, if_pos h]

/-- Any failed check makes `GetFirstText` leave the text empty. -/
theorem GetFirstText_empty_of_fails (buf : List Nat) (n : Int)
    (h : getFirstTextFails buf n = true) : (GetFirstText buf n).2 = [] := by
  unfold getFirstTextFails at h
  simp only [Bool.or_eq_true, decide_eq_true_eq] at h
  unfold GetFirstText
  rcases h with h | h
  · rw [if_pos h]
  · by_cases h1 : ftStart buf n < 8 ∨ 12 < ftStart buf n
    · rw [if_pos h1]
    · rw [if_neg h1, if_pos h]

/-- A successful prefix match pins down the matched buffer bytes. -/
theorem strncmpEq_bufGet {line p : List Nat} (h : strncmpEq line p = true) :
    ∀ k, k < p.length → bufGet line k = p.getD k 0 := by
  intro k hk
  unfold strncmpEq at h
  rw [List.all_eq_true] at h
  have h2 := h k (List.mem_range.mpr hk)
  simpa using h2

/-- Two OBIS codes differing at a common index cannot both match a line. -/
theorem strncmpEq_disjoint {line p q : List Nat} (k : Nat)
    (hkp : k < p.length) (hkq : k < q.length) (hne : p.getD k 0 ≠ q.getD k 0)
    (hp : strncmpEq line p = true) : strncmpEq line q = false := by
  by_contra hq
  rw [Bool.not_eq_false] at hq
  exact hne ((strncmpEq_bufGet hp k hkp).symm.trans (strncmpEq_bufGet hq k hkq))

/-- The line length in effect for the branches after the power-timestamp one
(that branch reassigns the local `nLen` to `GetLastText`'s return value). -/
def effLen (line : List Nat) : Int :=
  if strncmpEq line DSMR_PWR_TIMESTAMP then
    (GetLastText line ((line.length : Nat) : Int)).1
  else ((line.length : Nat) : Int)

/-- On lines not matching the power-timestamp code, the effective length is
the line length. -/
theorem effLen_of_no_ts {line : List Nat}
    (h : strncmpEq line DSMR_PWR_TIMESTAMP = false) :
    effLen line = ((line.length : Nat) : Int) := by
  unfold effLen
  rw [h]
  simp

/-- Buffer bytes at in-range indices are list members. -/
theorem bufGet_mem {l : List Nat} {i : Nat} (h : i < l.length) : bufGet l i ∈ l := by
  unfold bufGet
  rw [List.getD_eq_getElem l 0 h]
  exact List.getElem_mem h

/-- A list member sits at some in-range buffer index. -/
theorem exists_bufGet_of_mem {l : List Nat} {c : Nat} (h : c ∈ l) :
    ∃ i, i < l.length ∧ bufGet l i = c := by
  induction l with
  | nil => cases h
  | cons a t ih =>
    rcases List.mem_cons.mp h with h1 | h2
    · exact ⟨0, Nat.succ_pos _, by simp [bufGet, h1.symm]⟩
    · obtain ⟨i, hi, hgi⟩ := ih h2
      exact ⟨i + 1, Nat.succ_lt_succ hi, by simpa [bufGet] using hgi⟩

/-- The backwards scan misses: no scanned index holds the byte. -/
theorem findLastAux_eq_neg {l : List Nat} {c : Nat} {n : Nat}
    (h : ∀ i, i < n → bufGet l i ≠ c) : findLastAux l c n = -1 := by
  induction n with
  | zero => rfl
  | succ n ih =>
    unfold findLastAux
    rw [if_neg (h n (Nat.lt_succ_self n))]
    exact ih (fun i hi => h i (Nat.lt_succ_of_lt hi))

/-- The backwards scan hits when some scanned index holds the byte. -/
theorem findLastAux_nonneg {l : List Nat} {c : Nat} {n i : Nat}
    (hi : i < n) (hc : bufGet l i = c) : 0 ≤ findLastAux l c n := by
  induction n with
  | zero => cases hi
  | succ n ih =>
    unfold findLastAux
    by_cases hn : bufGet l n = c
    · rw [if_pos hn]; exact Int.ofNat_nonneg n
    · rw [if_neg hn]
      have hin : i < n := by
        rcases Nat.lt_succ_iff_lt_or_eq.mp hi with h | h
        · exact h
        · exact absurd (h ▸ hc) hn
      exact ih hin

/-- The scan result is at least `-1`. -/
theorem findLastAux_ge {l : List Nat} {c : Nat} {n : Nat} : -1 ≤ findLastAux l c n := by
  induction n with
  | zero => exact le_refl _
  | succ n ih =>
    unfold findLastAux
    by_cases hn : bufGet l n = c
    · rw [if_pos hn]; omega
    · rw [if_neg hn]; exact ih

/-- The scan result is below the scanned bound. -/
theorem findLastAux_lt {l : List Nat} {c : Nat} {n : Nat} : findLastAux l c n < (n : Int) := by
  induction n with
  | zero => simp [findLastAux]
  | succ n ih =>
    unfold findLastAux
    by_cases hn : bufGet l n = c
    · rw [if_pos hn]; omega
    · rw [if_neg hn]; omega

/-- A non-negative scan result points at the searched byte. -/
theorem findLastAux_get {l : List Nat} {c : Nat} {n : Nat}
    (h : 0 ≤ findLastAux l c n) : bufGet l (findLastAux l c n).toNat = c := by
  induction n with
  | zero => simp [findLastAux] at h
  | succ n ih =>
    unfold findLastAux at h ⊢
    by_cases hn : bufGet l n = c
    · rw [if_pos hn]; simpa using hn
    · rw [if_neg hn]; rw [if_neg hn] at h; exact ih h

/-- A non-negative scan result is the last hit: every later scanned index
misses. -/
theorem findLastAux_max {l : List Nat} {c : Nat} {n : Nat}
    (h : 0 ≤ findLastAux l c n) :
    ∀ j, (findLastAux l c n).toNat < j → j < n → bufGet l j ≠ c := by
  induction n with
  | zero => intro j _ hj; cases hj
  | succ n ih =>
    unfold findLastAux at h ⊢
    by_cases hn : bufGet l n = c
    · rw [if_pos hn]
      intro j hj1 hj2
      simp only [Int.toNat_ofNat] at hj1
      omega
    · rw [if_neg hn]; rw [if_neg hn] at h
      intro j hj1 hj2
      rcases Nat.lt_succ_iff_lt_or_eq.mp hj2 with hlt | heq
      · exact ih h j hj1 hlt
      · exact heq ▸ hn

/-- On full-line searches, a missing byte gives scan result `-1`. -/
theorem findLast_neg_of_not_mem {l : List Nat} {c : Nat} (h : c ∉ l) :
    FindLastChar l c (l.length : Int) = -1 := by
  unfold FindLastChar
  rw [Int.toNat_ofNat]
  exact findLastAux_eq_neg (fun i hi hc => h (hc ▸ bufGet_mem hi))

/-- On full-line searches, a present byte gives a non-negative scan result. -/
theorem findLast_nonneg_of_mem {l : List Nat} {c : Nat} (h : c ∈ l) :
    0 ≤ FindLastChar l c (l.length : Int) := by
  obtain ⟨i, hi, hgi⟩ := exists_bufGet_of_mem h
  unfold FindLastChar
  rw [Int.toNat_ofNat]
  exact findLastAux_nonneg hi hgi

/-- On full-line searches, a non-negative scan result certifies membership. -/
theorem mem_of_findLast_nonneg {l : List Nat} {c : Nat}
    (h : 0 ≤ FindLastChar l c (l.length : Int)) : c ∈ l := by
  unfold FindLastChar at h
  rw [Int.toNat_ofNat] at h
  have hget := findLastAux_get h
  have hlt : (findLastAux l c l.length).toNat < l.length := by
    have := @findLastAux_lt l c l.length
    omega
  exact hget ▸ bufGet_mem hlt

/-- On a line carrying `/`, the CRC branch restarts the accumulator from the
suffix at the last `/` and reports invalid. -/
theorem crcPhase_slash (crc : Nat) (line : List Nat) (h : 47 ∈ line) :
    crcPhase crc line = (Crc16 0 (line.drop (slashIdx line)), false) := by
  unfold crcPhase
  rw [if_pos (findLast_nonneg_of_mem h)]

/-- On a line carrying `!` but no `/`, the CRC branch folds the `!` byte,
compares the accumulator with the parsed hex field, and resets to zero. -/
theorem crcPhase_bang (crc : Nat) (line : List Nat) (hns : 47 ∉ line) (hne : 33 ∈ line) :
    crcPhase crc line =
      (0, strtoul16 (crcDigits line (bangIdx line + 1)) == Crc16 crc [33]) := by
  unfold crcPhase
  rw [if_neg (by rw [findLast_neg_of_not_mem hns]; decide),
    if_pos (findLast_nonneg_of_mem hne)]
  have hb : bufGet line (bangIdx line) = 33 := by
    unfold bangIdx FindLastChar
    rw [Int.toNat_ofNat]
    have h0 := findLast_nonneg_of_mem hne
    unfold FindLastChar at h0
    rw [Int.toNat_ofNat] at h0
    exact findLastAux_get h0
  rw [hb]

/-- On a line with neither `/` nor `!`, the CRC branch folds the whole line
and reports invalid. -/
theorem crcPhase_data (crc : Nat) (line : List Nat) (hns : 47 ∉ line) (hne : 33 ∉ line) :
    crcPhase crc line = (Crc16 crc line, false) := by
  unfold crcPhase
  rw [if_neg (by rw [findLast_neg_of_not_mem hns]; decide),
    if_neg (by rw [findLast_neg_of_not_mem hne]; decide)]

/-- The accumulator after a decode step is the CRC phase's first component. -/
theorem decode_crc (st : DecoderState) (line : List Nat) :
    (DecodeTelegram st line).1.nCurrentCrc = (crcPhase st.nCurrentCrc line).1 := rfl

/-- The validity flag of a decode step is the CRC phase's second component. -/
theorem decode_valid (st : DecoderState) (line : List Nat) :
    (DecodeTelegram st line).2 = (crcPhase st.nCurrentCrc line).2 := rfl

/-- The readings after a decode step are the OBIS phase's output. -/
theorem decode_reading (st : DecoderState) (line : List Nat) :
    (DecodeTelegram st line).1.reading = obisPhase st.reading line := rfl

/-- Concrete telegram start line. -/
def tlStart : List Nat := strB ("/ABC") ++ [13, 10]

/-- Concrete line containing both `/` and `!`. -/
def tlBoth : List Nat := strB ("/ab!12") ++ [10]

/-- Concrete checksum line. -/
def tlBang : List Nat := strB ("!BB3D") ++ [10]

/-- One shift round as the spec words it: shift right one bit, XOR with
0xA001 when the low bit was set. -/
def crcClaimBit (a : Nat) : Nat := if a % 2 = 1 then (a / 2) ^^^ 0xA001 else a / 2

/-- Eight spec-worded shift rounds. -/
def crcClaimRounds : Nat → Nat → Nat
  | 0, a => a
  | n + 1, a => crcClaimRounds n (crcClaimBit a)

/-- The per-byte CRC-16/ARC update as the spec words it: XOR the byte into
the accumulator, then eight shift rounds. -/
def crcClaimStep (a b : Nat) : Nat := crcClaimRounds 8 (a ^^^ b)

/-- The source's bit step agrees with the spec-worded bit step. -/
theorem crc16Bit_eq (a : Nat) : crc16Bit a = crcClaimBit a := by
  unfold crc16Bit crcClaimBit
  rw [Nat.and_one_is_mod, Nat.shiftRight_one]
  by_cases hc : a % 2 = 1
  · rw [if_pos (by omega), if_pos hc]
  · rw [if_neg (by omega), if_neg hc]

/-- The source's round iteration agrees with the spec-worded one. -/
theorem crc16Rounds_eq (n a : Nat) : crc16Rounds n a = crcClaimRounds n a := by
  induction n generalizing a with
  | zero => rfl
  | succ k ih =>
    unfold crc16Rounds crcClaimRounds
    rw [crc16Bit_eq]
    exact ih _

/-- C1: for every initial accumulator and byte sequence, `Crc16` performs the
CRC-16/ARC update the spec describes (XOR the byte in, then eight times shift
right, XORing 0xA001 when the low bit was set), and accumulating the bytes of
"123456789" from 0 yields 0xBB3D. -/
theorem crc16_arc_correct :
    (∀ (uCrc : Nat) (bytes : List Nat),
      Crc16 uCrc bytes = bytes.foldl crcClaimStep uCrc) ∧
    Crc16 0 (strB ("123456789")) = 0xBB3D := by
  constructor
  · intro u bs
    unfold Crc16
    rw [show (fun c b => crc16Rounds 8 (c ^^^ b)) = crcClaimStep from
      funext fun c => funext fun b => crc16Rounds_eq 8 (c ^^^ b)]
  · decide

/-- C3: on a line containing `!` and no `/`, `DecodeTelegram` folds exactly
the single `!` byte into the accumulator, parses the four characters after
`!` as base-16, returns true iff that value equals the accumulator, and
resets the accumulator to zero either way. -/
theorem checksum_line_behavior (st : DecoderState) (line : List Nat)
    (hbang : 33 ∈ line) (hslash : 47 ∉ line) :
    (DecodeTelegram st line).1.nCurrentCrc = 0 ∧
    ((DecodeTelegram st line).2 = true ↔
      strtoul16 (crcDigits line (bangIdx line + 1)) = Crc16 st.nCurrentCrc [33]) := by
  have h := crcPhase_bang st.nCurrentCrc line hslash hbang
  constructor
  · rw [decode_crc, h]
  · rw [decode_valid, h]
    simp

/-- Closed instance of `checksum_line_behavior` on the line "!BB3D". -/
theorem checksum_line_behavior_witness :
    (DecodeTelegram initState tlBang).1.nCurrentCrc = 0 :=
  (checksum_line_behavior initState tlBang (by decide) (by decide)).1

/-- C4: a line without `!` always decodes to false, and a true result forces
a `!` line without `/` whose transmitted checksum matches the accumulator. -/
theorem valid_only_on_checksum_line (st : DecoderState) (line : List Nat) :
    (33 ∉ line → (DecodeTelegram st line).2 = false) ∧
    ((DecodeTelegram st line).2 = true →
      33 ∈ line ∧ 47 ∉ line ∧
      strtoul16 (crcDigits line (bangIdx line + 1)) = Crc16 st.nCurrentCrc [33]) := by
  constructor
  · intro hne
    by_cases hs : 47 ∈ line
    · rw [decode_valid, crcPhase_slash st.nCurrentCrc line hs]
    · rw [decode_valid, crcPhase_data st.nCurrentCrc line hs hne]
  · intro htrue
    by_cases hs : 47 ∈ line
    · rw [decode_valid, crcPhase_slash st.nCurrentCrc line hs] at htrue
      simp at htrue
    · by_cases hb : 33 ∈ line
      · refine ⟨hb, hs, ?_⟩
        rw [decode_valid, crcPhase_bang st.nCurrentCrc line hs hb] at htrue
        simpa using htrue
      · rw [decode_valid, crcPhase_data st.nCurrentCrc line hs hb] at htrue
        simp at htrue

/-- Closed instance of `valid_only_on_checksum_line` on a data line. -/
theorem valid_only_on_checksum_line_witness :
    (DecodeTelegram initState tlVersion).2 = false :=
  (valid_only_on_checksum_line initState tlVersion).1 (by decide)

/-- C7: on a line containing `/`, the accumulator is reset to the CRC (from
initial 0) of the suffix that starts at the `/` character (the last one, which
is the unique one on a well-formed start line). -/
theorem slash_line_resets_crc (st : DecoderState) (line : List Nat) (h : 47 ∈ line) :
    bufGet line (slashIdx line) = 47 ∧
    (∀ j, slashIdx line < j → j < line.length → bufGet line j ≠ 47) ∧
    (DecodeTelegram st line).1.nCurrentCrc = Crc16 0 (line.drop (slashIdx line)) := by
  have h0 : 0 ≤ FindLastChar line 47 (line.length : Int) := findLast_nonneg_of_mem h
  have h0' : 0 ≤ findLastAux line 47 line.length := by
    unfold FindLastChar at h0
    rwa [Int.toNat_ofNat] at h0
  refine ⟨?_, ?_, ?_⟩
  · unfold slashIdx FindLastChar
    rw [Int.toNat_ofNat]
    exact findLastAux_get h0'
  · unfold slashIdx FindLastChar
    rw [Int.toNat_ofNat]
    exact findLastAux_max h0'
  · rw [decode_crc, crcPhase_slash st.nCurrentCrc line h]

/-- Closed instance of `slash_line_resets_crc` on the line "/ABC". -/
theorem slash_line_resets_crc_witness :
    (DecodeTelegram initState tlStart).1.nCurrentCrc =
      Crc16 0 (tlStart.drop (slashIdx tlStart)) :=
  (slash_line_resets_crc initState tlStart (by decide)).2.2

/-- C10: a line containing both `/` and `!` takes the telegram-start branch —
accumulator reset to the CRC of the suffix from the last `/`, no checksum
comparison, result false. -/
theorem slash_wins_over_bang (st : DecoderState) (line : List Nat)
    (hs : 47 ∈ line) (_hb : 33 ∈ line) :
    (DecodeTelegram st line).1.nCurrentCrc = Crc16 0 (line.drop (slashIdx line)) ∧
    (DecodeTelegram st line).2 = false := by
  constructor
  · rw [decode_crc, crcPhase_slash st.nCurrentCrc line hs]
  · rw [decode_valid, crcPhase_slash st.nCurrentCrc line hs]

/-- Closed instance of `slash_wins_over_bang`. -/
theorem slash_wins_over_bang_witness :
    (DecodeTelegram initState tlBoth).2 = false :=
  (slash_wins_over_bang initState tlBoth (by decide) (by decide)).2

/-- C6: decoding the sample consumption line yields 992992 Wh, the sample
version line yields 42 unscaled, and the sample gas line sets the gas
timestamp to "150531200000S" and the gas total to 811923. -/
theorem sample_lines_decode :
    (DecodeTelegram initState tlPwrLow).1.reading.lPwrLow = 992992 ∧
    (DecodeTelegram initState tlVersion).1.reading.lDsmrVersion = 42 ∧
    (DecodeTelegram initState tlGas).1.reading.achGasTime = strB ("150531200000S") ∧
    (DecodeTelegram initState tlGas).1.reading.lGasMeter = 811923 := by
  refine ⟨by decide, by decide, by decide, by decide⟩

/-- C5 counterexample: the version token `1..2` carries two decimal points,
so not every of its characters is "a digit or a single decimal point", yet
`GetValue` accepts it and returns the value 1 (the parsed numeric prefix)
rather than no value. -/
theorem token_two_dots_accepted :
    tokLen tlDots ((tlDots.length : Nat) : Int) = 4 ∧
    bufGet tlDots 11 = 46 ∧ bufGet tlDots 12 = 46 ∧
    GetValue tlDots ((tlDots.length : Nat) : Int) false = 1 := by
  refine ⟨by decide, by decide, by decide, by decide⟩

/-- C5 amended: `GetValue` returns 0 whenever one of its checks fails — the
opening bracket outside `[8, 32]`, the token length outside `[1, 12]`
(0 and 13 rejected), or a token character failing `IsNumber` (digit, decimal
point — possibly several — or NUL); and when every check passes (lengths 1
and 12 accepted) and the double-rounded scaled value fits the 32-bit `long`,
it returns the value of the token's longest numeric prefix as computed in
IEEE double arithmetic, ×1000 when requested. -/
theorem getvalue_acceptance (buf : List Nat) (n : Int) (m : Bool) :
    (getValueFails buf n = true → GetValue buf n m = 0) ∧
    (getValueFails buf n = false →
      numVal (buf.drop ((tokStart buf n).toNat + 1)) m < 2 ^ 31 →
      GetValue buf n m = numVal (buf.drop ((tokStart buf n).toNat + 1)) m) := by
  constructor
  · exact GetValue_eq_zero_of_fails buf n m
  · intro hok _hrange
    have h8 : ¬ tokStart buf n < 8 := fun hc => by
      simp [getValueFails, hc] at hok
    have h32 : ¬ 32 < tokStart buf n := fun hc => by
      simp [getValueFails, hc] at hok
    have hL1 : ¬ tokLen buf n < 1 := fun hc => by
      simp [getValueFails, hc] at hok
    have hL2 : ¬ 12 < tokLen buf n := fun hc => by
      simp [getValueFails, hc] at hok
    have hall : (List.range (tokLen buf n).toNat).all
        (fun i => IsNumber (bufGet buf ((tokStart buf n).toNat + 1 + i))) = true := by
      rcases hb : (List.range (tokLen buf n).toNat).all
        (fun i => IsNumber (bufGet buf ((tokStart buf n).toNat + 1 + i))) with _ | _
      · exfalso
        simp [getValueFails, hb] at hok
      · rfl
    unfold GetValue
    rw [if_neg h8, if_neg h32, if_neg (by omega), if_neg (not_not_intro hall)]

/-- Closed instance of `getvalue_acceptance` on the version token "42". -/
theorem getvalue_acceptance_witness :
    GetValue tlVersion ((tlVersion.length : Nat) : Int) false =
      numVal (tlVersion.drop
        ((tokStart tlVersion ((tlVersion.length : Nat) : Int)).toNat + 1)) false :=
  (getvalue_acceptance tlVersion ((tlVersion.length : Nat) : Int) false).2
    (by decide) (by decide)

/-- C2 counterexample: on a version line whose token is empty the extraction
fails (`GetValue` gives 0), yet the destination field is overwritten from its
prior value 42 to 0 rather than left unchanged. -/
theorem failed_extraction_overwrites :
    GetValue tlEmptyTok ((tlEmptyTok.length : Nat) : Int) false = 0 ∧
    stPrior.reading.lDsmrVersion = 42 ∧
    (DecodeTelegram stPrior tlEmptyTok).1.reading.lDsmrVersion = 0 := by
  refine ⟨by decide, by decide, by decide⟩

/-- The version field after the OBIS phase: assigned `GetValue`'s result on a
version-prefix match, untouched otherwise. -/
theorem obisPhase_lDsmrVersion (r : MeterReading) (line : List Nat) :
    (obisPhase r line).lDsmrVersion =
      (if strncmpEq line DSMR_VERSION then GetValue line ((line.length : Nat) : Int) false
       else r.lDsmrVersion) := by
  unfold obisPhase updVersion updPwrTime updPwrLow updPwrHigh updReturnLow updReturnHigh
    updPwrActual updPwrL1 updPwrL2 updPwrL3 updReturnActual updReturnL1
    updReturnL2 updReturnL3 updPwrTariff updGas
  simp only [apply_ite (MeterReading.lDsmrVersion), ite_self]

/-- The power-timestamp field after the OBIS phase: assigned `GetLastText`'s
text on a timestamp-prefix match, untouched otherwise. -/
theorem obisPhase_achPwrTime (r : MeterReading) (line : List Nat) :
    (obisPhase r line).achPwrTime =
      (if strncmpEq line DSMR_PWR_TIMESTAMP then
        (GetLastText line ((line.length : Nat) : Int)).2
       else r.achPwrTime) := by
  unfold obisPhase updVersion updPwrTime updPwrLow updPwrHigh updReturnLow updReturnHigh
    updPwrActual updPwrL1 updPwrL2 updPwrL3 updReturnActual updReturnL1
    updReturnL2 updReturnL3 updPwrTariff updGas
  simp only [apply_ite (MeterReading.achPwrTime), ite_self]

/-- The `lPwrLow` field after the OBIS phase: assigned on a matching line,
untouched otherwise. -/
theorem obisPhase_lPwrLow (r : MeterReading) (line : List Nat) :
    (obisPhase r line).lPwrLow =
      (if strncmpEq line DSMR_PWR_LOW then GetValue line (effLen line) true
       else r.lPwrLow) := by
  unfold obisPhase effLen updVersion updPwrTime updPwrLow updPwrHigh updReturnLow
    updReturnHigh updPwrActual updPwrL1 updPwrL2 updPwrL3 updReturnActual
    updReturnL1 updReturnL2 updReturnL3 updPwrTariff updGas
  simp only [apply_ite (MeterReading.lPwrLow), ite_self]

/-- The `lPwrHigh` field after the OBIS phase: assigned on a matching line,
untouched otherwise. -/
theorem obisPhase_lPwrHigh (r : MeterReading) (line : List Nat) :
    (obisPhase r line).lPwrHigh =
      (if strncmpEq line DSMR_PWR_HIGH then GetValue line (effLen line) true
       else r.lPwrHigh) := by
  unfold obisPhase effLen updVersion updPwrTime updPwrLow updPwrHigh updReturnLow
    updReturnHigh updPwrActual updPwrL1 updPwrL2 updPwrL3 updReturnActual
    updReturnL1 updReturnL2 updReturnL3 updPwrTariff updGas
  simp only [apply_ite (MeterReading.lPwrHigh), ite_self]

/-- The `lReturnLow` field after the OBIS phase: assigned on a matching line,
untouched otherwise. -/
theorem obisPhase_lReturnLow (r : MeterReading) (line : List Nat) :
    (obisPhase r line).lReturnLow =
      (if strncmpEq line DSMR_RET_LOW then GetValue line (effLen line) true
       else r.lReturnLow) := by
  unfold obisPhase effLen updVersion updPwrTime updPwrLow updPwrHigh updReturnLow
    updReturnHigh updPwrActual updPwrL1 updPwrL2 updPwrL3 updReturnActual
    updReturnL1 updReturnL2 updReturnL3 updPwrTariff updGas
  simp only [apply_ite (MeterReading.lReturnLow), ite_self]

/-- The `lReturnHigh` field after the OBIS phase: assigned on a matching line,
untouched otherwise. -/
theorem obisPhase_lReturnHigh (r : MeterReading) (line : List Nat) :
    (obisPhase r line).lReturnHigh =
      (if strncmpEq line DSMR_RET_HIGH then GetValue line (effLen line) true
       else r.lReturnHigh) := by
  unfold obisPhase effLen updVersion updPwrTime updPwrLow updPwrHigh updReturnLow
    updReturnHigh updPwrActual updPwrL1 updPwrL2 updPwrL3 updReturnActual
    updReturnL1 updReturnL2 updReturnL3 updPwrTariff updGas
  simp only [apply_ite (MeterReading.lReturnHigh), ite_self]

/-- The `lPwrActual` field after the OBIS phase: assigned on a matching line,
untouched otherwise. -/
theorem obisPhase_lPwrActual (r : MeterReading) (line : List Nat) :
    (obisPhase r line).lPwrActual =
      (if strncmpEq line DSMR_PWR_ACTUAL then GetValue line (effLen line) true
       else r.lPwrActual) := by
  unfold obisPhase effLen updVersion updPwrTime updPwrLow updPwrHigh updReturnLow
    updReturnHigh updPwrActual updPwrL1 updPwrL2 updPwrL3 updReturnActual
    updReturnL1 updReturnL2 updReturnL3 updPwrTariff updGas
  simp only [apply_ite (MeterReading.lPwrActual), ite_self]

/-- The `lPwrL1` field after the OBIS phase: assigned on a matching line,
untouched otherwise. -/
theorem obisPhase_lPwrL1 (r : MeterReading) (line : List Nat) :
    (obisPhase r line).lPwrL1 =
      (if strncmpEq line DSMR_PWR_L1 then GetValue line (effLen line) true
       else r.lPwrL1) := by
  unfold obisPhase effLen updVersion updPwrTime updPwrLow updPwrHigh updReturnLow
    updReturnHigh updPwrActual updPwrL1 updPwrL2 updPwrL3 updReturnActual
    updReturnL1 updReturnL2 updReturnL3 updPwrTariff updGas
  simp only [apply_ite (MeterReading.lPwrL1), ite_self]

/-- The `lPwrL2` field after the OBIS phase: assigned on a matching line,
untouched otherwise. -/
theorem obisPhase_lPwrL2 (r : MeterReading) (line : List Nat) :
    (obisPhase r line).lPwrL2 =
      (if strncmpEq line DSMR_PWR_L2 then GetValue line (effLen line) true
       else r.lPwrL2) := by
  unfold obisPhase effLen updVersion updPwrTime updPwrLow updPwrHigh updReturnLow
    updReturnHigh updPwrActual updPwrL1 updPwrL2 updPwrL3 updReturnActual
    updReturnL1 updReturnL2 updReturnL3 updPwrTariff updGas
  simp only [apply_ite (MeterReading.lPwrL2), ite_self]

/-- The `lPwrL3` field after the OBIS phase: assigned on a matching line,
untouched otherwise. -/
theorem obisPhase_lPwrL3 (r : MeterReading) (line : List Nat) :
    (obisPhase r line).lPwrL3 =
      (if strncmpEq line DSMR_PWR_L3 then GetValue line (effLen line) true
       else r.lPwrL3) := by
  unfold obisPhase effLen updVersion updPwrTime updPwrLow updPwrHigh updReturnLow
    updReturnHigh updPwrActual updPwrL1 updPwrL2 updPwrL3 updReturnActual
    updReturnL1 updReturnL2 updReturnL3 updPwrTariff updGas
  simp only [apply_ite (MeterReading.lPwrL3), ite_self]

/-- The `lReturnActual` field after the OBIS phase: assigned on a matching line,
untouched otherwise. -/
theorem obisPhase_lReturnActual (r : MeterReading) (line : List Nat) :
    (obisPhase r line).lReturnActual =
      (if strncmpEq line DSMR_RET_ACTUAL then GetValue line (effLen line) true
       else r.lReturnActual) := by
  unfold obisPhase effLen updVersion updPwrTime updPwrLow updPwrHigh updReturnLow
    updReturnHigh updPwrActual updPwrL1 updPwrL2 updPwrL3 updReturnActual
    updReturnL1 updReturnL2 updReturnL3 updPwrTariff updGas
  simp only [apply_ite (MeterReading.lReturnActual), ite_self]

/-- The `lReturnL1` field after the OBIS phase: assigned on a matching line,
untouched otherwise. -/
theorem obisPhase_lReturnL1 (r : MeterReading) (line : List Nat) :
    (obisPhase r line).lReturnL1 =
      (if strncmpEq line DSMR_RET_L1 then GetValue line (effLen line) true
       else r.lReturnL1) := by
  unfold obisPhase effLen updVersion updPwrTime updPwrLow updPwrHigh updReturnLow
    updReturnHigh updPwrActual updPwrL1 updPwrL2 updPwrL3 updReturnActual
    updReturnL1 updReturnL2 updReturnL3 updPwrTariff updGas
  simp only [apply_ite (MeterReading.lReturnL1), ite_self]

/-- The `lReturnL2` field after the OBIS phase: assigned on a matching line,
untouched otherwise. -/
theorem obisPhase_lReturnL2 (r : MeterReading) (line : List Nat) :
    (obisPhase r line).lReturnL2 =
      (if strncmpEq line DSMR_RET_L2 then GetValue line (effLen line) true
       else r.lReturnL2) := by
  unfold obisPhase effLen updVersion updPwrTime updPwrLow updPwrHigh updReturnLow
    updReturnHigh updPwrActual updPwrL1 updPwrL2 updPwrL3 updReturnActual
    updReturnL1 updReturnL2 updReturnL3 updPwrTariff updGas
  simp only [apply_ite (MeterReading.lReturnL2), ite_self]

/-- The `lReturnL3` field after the OBIS phase: assigned on a matching line,
untouched otherwise. -/
theorem obisPhase_lReturnL3 (r : MeterReading) (line : List Nat) :
    (obisPhase r line).lReturnL3 =
      (if strncmpEq line DSMR_RET_L3 then GetValue line (effLen line) true
       else r.lReturnL3) := by
  unfold obisPhase effLen updVersion updPwrTime updPwrLow updPwrHigh updReturnLow
    updReturnHigh updPwrActual updPwrL1 updPwrL2 updPwrL3 updReturnActual
    updReturnL1 updReturnL2 updReturnL3 updPwrTariff updGas
  simp only [apply_ite (MeterReading.lReturnL3), ite_self]

/-- The `lPwrTariff` field after the OBIS phase: assigned on a matching line,
untouched otherwise. -/
theorem obisPhase_lPwrTariff (r : MeterReading) (line : List Nat) :
    (obisPhase r line).lPwrTariff =
      (if strncmpEq line DSMR_PWR_TARIFF then GetValue line (effLen line) false
       else r.lPwrTariff) := by
  unfold obisPhase effLen updVersion updPwrTime updPwrLow updPwrHigh updReturnLow
    updReturnHigh updPwrActual updPwrL1 updPwrL2 updPwrL3 updReturnActual
    updReturnL1 updReturnL2 updReturnL3 updPwrTariff updGas
  simp only [apply_ite (MeterReading.lPwrTariff), ite_self]

/-- The `lGasMeter` field after the OBIS phase: assigned on a matching line,
untouched otherwise. -/
theorem obisPhase_lGasMeter (r : MeterReading) (line : List Nat) :
    (obisPhase r line).lGasMeter =
      (if strncmpEq line DSMR_GAS_METER then GetValue line (effLen line) true
       else r.lGasMeter) := by
  unfold obisPhase effLen updVersion updPwrTime updPwrLow updPwrHigh updReturnLow
    updReturnHigh updPwrActual updPwrL1 updPwrL2 updPwrL3 updReturnActual
    updReturnL1 updReturnL2 updReturnL3 updPwrTariff updGas
  simp only [apply_ite (MeterReading.lGasMeter), ite_self]

/-- The `achGasTime` field after the OBIS phase: assigned on a gas line,
untouched otherwise. -/
theorem obisPhase_achGasTime (r : MeterReading) (line : List Nat) :
    (obisPhase r line).achGasTime =
      (if strncmpEq line DSMR_GAS_METER then (GetFirstText line (effLen line)).2
       else r.achGasTime) := by
  unfold obisPhase effLen updVersion updPwrTime updPwrLow updPwrHigh updReturnLow
    updReturnHigh updPwrActual updPwrL1 updPwrL2 updPwrL3 updReturnActual
    updReturnL1 updReturnL2 updReturnL3 updPwrTariff updGas
  simp only [apply_ite (MeterReading.achGasTime), ite_self]

/-- C2 amended: on a line matching an OBIS code whose extraction fails
(bracket outside its window, token length out of bounds, or invalid token
characters), the destination is overwritten rather than preserved: every
numeric destination field is set to 0 and each text timestamp destination
(power timestamp, gas timestamp) to the empty string. -/
theorem matching_line_overwrites (st : DecoderState) (line : List Nat) :
    (strncmpEq line DSMR_VERSION = true → getValueFails line ((line.length : Nat) : Int) = true →
      (DecodeTelegram st line).1.reading.lDsmrVersion = 0) ∧
    (strncmpEq line DSMR_PWR_TIMESTAMP = true → getLastTextFails line ((line.length : Nat) : Int) = true →
      (DecodeTelegram st line).1.reading.achPwrTime = []) ∧
    (strncmpEq line DSMR_PWR_LOW = true → getValueFails line ((line.length : Nat) : Int) = true →
      (DecodeTelegram st line).1.reading.lPwrLow = 0) ∧
    (strncmpEq line DSMR_PWR_HIGH = true → getValueFails line ((line.length : Nat) : Int) = true →
      (DecodeTelegram st line).1.reading.lPwrHigh = 0) ∧
    (strncmpEq line DSMR_RET_LOW = true → getValueFails line ((line.length : Nat) : Int) = true →
      (DecodeTelegram st line).1.reading.lReturnLow = 0) ∧
    (strncmpEq line DSMR_RET_HIGH = true → getValueFails line ((line.length : Nat) : Int) = true →
      (DecodeTelegram st line).1.reading.lReturnHigh = 0) ∧
    (strncmpEq line DSMR_PWR_ACTUAL = true → getValueFails line ((line.length : Nat) : Int) = true →
      (DecodeTelegram st line).1.reading.lPwrActual = 0) ∧
    (strncmpEq line DSMR_PWR_L1 = true → getValueFails line ((line.length : Nat) : Int) = true →
      (DecodeTelegram st line).1.reading.lPwrL1 = 0) ∧
    (strncmpEq line DSMR_PWR_L2 = true → getValueFails line ((line.length : Nat) : Int) = true →
      (DecodeTelegram st line).1.reading.lPwrL2 = 0) ∧
    (strncmpEq line DSMR_PWR_L3 = true → getValueFails line ((line.length : Nat) : Int) = true →
      (DecodeTelegram st line).1.reading.lPwrL3 = 0) ∧
    (strncmpEq line DSMR_RET_ACTUAL = true → getValueFails line ((line.length : Nat) : Int) = true →
      (DecodeTelegram st line).1.reading.lReturnActual = 0) ∧
    (strncmpEq line DSMR_RET_L1 = true → getValueFails line ((line.length : Nat) : Int) = true →
      (DecodeTelegram st line).1.reading.lReturnL1 = 0) ∧
    (strncmpEq line DSMR_RET_L2 = true → getValueFails line ((line.length : Nat) : Int) = true →
      (DecodeTelegram st line).1.reading.lReturnL2 = 0) ∧
    (strncmpEq line DSMR_RET_L3 = true → getValueFails line ((line.length : Nat) : Int) = true →
      (DecodeTelegram st line).1.reading.lReturnL3 = 0) ∧
    (strncmpEq line DSMR_PWR_TARIFF = true → getValueFails line ((line.length : Nat) : Int) = true →
      (DecodeTelegram st line).1.reading.lPwrTariff = 0) ∧
    (strncmpEq line DSMR_GAS_METER = true → getValueFails line ((line.length : Nat) : Int) = true →
      (DecodeTelegram st line).1.reading.lGasMeter = 0) ∧
    (strncmpEq line DSMR_GAS_METER = true → getFirstTextFails line ((line.length : Nat) : Int) = true →
      (DecodeTelegram st line).1.reading.achGasTime = []) := by
  refine ⟨?_, ?_, ?_, ?_, ?_, ?_, ?_, ?_, ?_, ?_, ?_, ?_, ?_, ?_, ?_, ?_, ?_⟩
  · intro hm hf
    rw [decode_reading, obisPhase_lDsmrVersion, if_pos hm]
    exact GetValue_eq_zero_of_fails line ((line.length : Nat) : Int) false hf
  · intro hm hf
    rw [decode_reading, obisPhase_achPwrTime, if_pos hm]
    exact GetLastText_empty_of_fails line ((line.length : Nat) : Int) hf
  · intro hm hf
    have hts : strncmpEq line DSMR_PWR_TIMESTAMP = false :=
      strncmpEq_disjoint 0 (by decide) (by decide) (by decide) hm
    rw [decode_reading, obisPhase_lPwrLow, if_pos hm, effLen_of_no_ts hts]
    exact GetValue_eq_zero_of_fails line ((line.length : Nat) : Int) true hf
  · intro hm hf
    have hts : strncmpEq line DSMR_PWR_TIMESTAMP = false :=
      strncmpEq_disjoint 0 (by decide) (by decide) (by decide) hm
    rw [decode_reading, obisPhase_lPwrHigh, if_pos hm, effLen_of_no_ts hts]
    exact GetValue_eq_zero_of_fails line ((line.length : Nat) : Int) true hf
  · intro hm hf
    have hts : strncmpEq line DSMR_PWR_TIMESTAMP = false :=
      strncmpEq_disjoint 0 (by decide) (by decide) (by decide) hm
    rw [decode_reading, obisPhase_lReturnLow, if_pos hm, effLen_of_no_ts hts]
    exact GetValue_eq_zero_of_fails line ((line.length : Nat) : Int) true hf
  · intro hm hf
    have hts : strncmpEq line DSMR_PWR_TIMESTAMP = false :=
      strncmpEq_disjoint 0 (by decide) (by decide) (by decide) hm
    rw [decode_reading, obisPhase_lReturnHigh, if_pos hm, effLen_of_no_ts hts]
    exact GetValue_eq_zero_of_fails line ((line.length : Nat) : Int) true hf
  · intro hm hf
    have hts : strncmpEq line DSMR_PWR_TIMESTAMP = false :=
      strncmpEq_disjoint 0 (by decide) (by decide) (by decide) hm
    rw [decode_reading, obisPhase_lPwrActual, if_pos hm, effLen_of_no_ts hts]
    exact GetValue_eq_zero_of_fails line ((line.length : Nat) : Int) true hf
  · intro hm hf
    have hts : strncmpEq line DSMR_PWR_TIMESTAMP = false :=
      strncmpEq_disjoint 0 (by decide) (by decide) (by decide) hm
    rw [decode_reading, obisPhase_lPwrL1, if_pos hm, effLen_of_no_ts hts]
    exact GetValue_eq_zero_of_fails line ((line.length : Nat) : Int) true hf
  · intro hm hf
    have hts : strncmpEq line DSMR_PWR_TIMESTAMP = false :=
      strncmpEq_disjoint 0 (by decide) (by decide) (by decide) hm
    rw [decode_reading, obisPhase_lPwrL2, if_pos hm, effLen_of_no_ts hts]
    exact GetValue_eq_zero_of_fails line ((line.length : Nat) : Int) true hf
  · intro hm hf
    have hts : strncmpEq line DSMR_PWR_TIMESTAMP = false :=
      strncmpEq_disjoint 0 (by decide) (by decide) (by decide) hm
    rw [decode_reading, obisPhase_lPwrL3, if_pos hm, effLen_of_no_ts hts]
    exact GetValue_eq_zero_of_fails line ((line.length : Nat) : Int) true hf
  · intro hm hf
    have hts : strncmpEq line DSMR_PWR_TIMESTAMP = false :=
      strncmpEq_disjoint 0 (by decide) (by decide) (by decide) hm
    rw [decode_reading, obisPhase_lReturnActual, if_pos hm, effLen_of_no_ts hts]
    exact GetValue_eq_zero_of_fails line ((line.length : Nat) : Int) true hf
  · intro hm hf
    have hts : strncmpEq line DSMR_PWR_TIMESTAMP = false :=
      strncmpEq_disjoint 0 (by decide) (by decide) (by decide) hm
    rw [decode_reading, obisPhase_lReturnL1, if_pos hm, effLen_of_no_ts hts]
    exact GetValue_eq_zero_of_fails line ((line.length : Nat) : Int) true hf
  · intro hm hf
    have hts : strncmpEq line DSMR_PWR_TIMESTAMP = false :=
      strncmpEq_disjoint 0 (by decide) (by decide) (by decide) hm
    rw [decode_reading, obisPhase_lReturnL2, if_pos hm, effLen_of_no_ts hts]
    exact GetValue_eq_zero_of_fails line ((line.length : Nat) : Int) true hf
  · intro hm hf
    have hts : strncmpEq line DSMR_PWR_TIMESTAMP = false :=
      strncmpEq_disjoint 0 (by decide) (by decide) (by decide) hm
    rw [decode_reading, obisPhase_lReturnL3, if_pos hm, effLen_of_no_ts hts]
    exact GetValue_eq_zero_of_fails line ((line.length : Nat) : Int) true hf
  · intro hm hf
    have hts : strncmpEq line DSMR_PWR_TIMESTAMP = false :=
      strncmpEq_disjoint 4 (by decide) (by decide) (by decide) hm
    rw [decode_reading, obisPhase_lPwrTariff, if_pos hm, effLen_of_no_ts hts]
    exact GetValue_eq_zero_of_fails line ((line.length : Nat) : Int) false hf
  · intro hm hf
    have hts : strncmpEq line DSMR_PWR_TIMESTAMP = false :=
      strncmpEq_disjoint 2 (by decide) (by decide) (by decide) hm
    rw [decode_reading, obisPhase_lGasMeter, if_pos hm, effLen_of_no_ts hts]
    exact GetValue_eq_zero_of_fails line ((line.length : Nat) : Int) true hf
  · intro hm hf
    have hts : strncmpEq line DSMR_PWR_TIMESTAMP = false :=
      strncmpEq_disjoint 2 (by decide) (by decide) (by decide) hm
    rw [decode_reading, obisPhase_achGasTime, if_pos hm, effLen_of_no_ts hts]
    exact GetFirstText_empty_of_fails line ((line.length : Nat) : Int) hf

/-- Closed instance of `matching_line_overwrites` on the empty-token version
line: the prior value 42 is overwritten with 0. -/
theorem matching_line_overwrites_witness :
    (DecodeTelegram stPrior tlEmptyTok).1.reading.lDsmrVersion = 0 :=
  (matching_line_overwrites stPrior tlEmptyTok).1 (by decide) (by decide)

/-- The sixteen OBIS codes checked by `DecodeTelegram`, in source order. -/
def obisCodes : List (List Nat) :=
  [DSMR_VERSION, DSMR_PWR_TIMESTAMP, DSMR_PWR_LOW, DSMR_PWR_HIGH, DSMR_RET_LOW,
   DSMR_RET_HIGH, DSMR_PWR_ACTUAL, DSMR_PWR_L1, DSMR_PWR_L2, DSMR_PWR_L3,
   DSMR_RET_L1, DSMR_RET_L2, DSMR_RET_L3, DSMR_RET_ACTUAL, DSMR_PWR_TARIFF,
   DSMR_GAS_METER]

/-- C8: a line matching no OBIS code leaves every meter-reading field
unchanged; consequently, after a second telegram that omits the
low-tariff-consumption line, that field keeps the first telegram's value. -/
theorem no_match_preserves_reading :
    (∀ (st : DecoderState) (line : List Nat),
      (∀ p ∈ obisCodes, strncmpEq line p = false) →
      (DecodeTelegram st line).1.reading = st.reading) ∧
    (runLines initState [tlPwrLow, tlVersion, tlTariff]).reading.lPwrLow = 992992 := by
  constructor
  · intro st line h
    have h1 := h DSMR_VERSION (by decide)
    have h2 := h DSMR_PWR_TIMESTAMP (by decide)
    have h3 := h DSMR_PWR_LOW (by decide)
    have h4 := h DSMR_PWR_HIGH (by decide)
    have h5 := h DSMR_RET_LOW (by decide)
    have h6 := h DSMR_RET_HIGH (by decide)
    have h7 := h DSMR_PWR_ACTUAL (by decide)
    have h8 := h DSMR_PWR_L1 (by decide)
    have h9 := h DSMR_PWR_L2 (by decide)
    have h10 := h DSMR_PWR_L3 (by decide)
    have h11 := h DSMR_RET_L1 (by decide)
    have h12 := h DSMR_RET_L2 (by decide)
    have h13 := h DSMR_RET_L3 (by decide)
    have h14 := h DSMR_RET_ACTUAL (by decide)
    have h15 := h DSMR_PWR_TARIFF (by decide)
    have h16 := h DSMR_GAS_METER (by decide)
    rw [decode_reading]
    unfold obisPhase updVersion updPwrTime updPwrLow updPwrHigh updReturnLow
      updReturnHigh updPwrActual updPwrL1 updPwrL2 updPwrL3 updReturnActual
      updReturnL1 updReturnL2 updReturnL3 updPwrTariff updGas
    simp [h1, h2, h3, h4, h5, h6, h7, h8, h9, h10, h11, h12, h13, h14, h15, h16]
  · decide

/-- Closed instance of `no_match_preserves_reading` on a non-table line. -/
theorem no_match_preserves_reading_witness :
    (DecodeTelegram initState tlNoMatch).1.reading = initState.reading :=
  (no_match_preserves_reading).1 initState tlNoMatch (by decide)
